import Mathlib

/-!
Verification development for the Produto (product) Lambda handlers,
a shallow embedding of `src/handlers/produto_handler.py`.

Part 1: models of the Python library functions the handlers call:
`int(str)` (base 10), `int(str, 16)` (used inside `uuid.UUID`), and the
normalization performed by the `uuid.UUID` constructor.
-/

namespace ProdutoHandler

/-- Whitespace characters stripped by Python's `str.strip()` (the set that
matters for `int()` argument stripping). -/
def isPySpace (c : Char) : Bool :=
  c == ' ' || c == '\t' || c == '\n' || c == '\r' || c == '\x0b' || c == '\x0c'

/-- Strip leading and trailing characters satisfying `p` (Python `str.strip`). -/
def pyStripChars (p : Char → Bool) (cs : List Char) : List Char :=
  ((cs.dropWhile p).reverse.dropWhile p).reverse

/-- Decimal digit value, ASCII digits (Python `int` base 10). -/
def digitVal10 (c : Char) : Option Nat :=
  if c.isDigit then some (c.toNat - '0'.toNat) else none

/-- Hexadecimal digit value (Python `int` base 16). -/
def hexVal (c : Char) : Option Nat :=
  if c.isDigit then some (c.toNat - '0'.toNat)
  else if 'a' ≤ c ∧ c ≤ 'f' then some (c.toNat - 'a'.toNat + 10)
  else if 'A' ≤ c ∧ c ≤ 'F' then some (c.toNat - 'A'.toNat + 10)
  else none

/-- Digit run after the first digit: Python allows a single underscore
between digits (`1_000`), never leading, trailing or doubled. -/
def pyDigitsGo (dv : Char → Option Nat) (base : Nat) : List Char → Nat → Option Nat
  | [], acc => some acc
  | ['_'], _ => none
  | '_' :: c :: rest, acc =>
    match dv c with
    | some d => pyDigitsGo dv base rest (base * acc + d)
    | none => none
  | c :: rest, acc =>
    match dv c with
    | some d => pyDigitsGo dv base rest (base * acc + d)
    | none => none

/-- A nonempty digit run (with Python's underscore rule). -/
def pyDigits (dv : Char → Option Nat) (base : Nat) : List Char → Option Nat
  | [] => none
  | c :: rest =>
    match dv c with
    | some d => pyDigitsGo dv base rest d
    | none => none

/-- Optional sign in front of a digit body (Python `int`). -/
def pySigned (body : List Char → Option Nat) : List Char → Option Int
  | '+' :: rest => (body rest).map (fun n => (n : Int))
  | '-' :: rest => (body rest).map (fun n => -(n : Int))
  | cs => (body cs).map (fun n => (n : Int))

/-- Python `int(s)` on a string: strip whitespace, optional sign, decimal
digits with underscores; `none` models the `ValueError` raise. -/
def pyInt (s : String) : Option Int :=
  pySigned (pyDigits digitVal10 10) (pyStripChars isPySpace s.toList)

/-- Hex digit body for `int(s, 16)`: optional `0x`/`0X` prefix (possibly
followed by one underscore), then hex digits with underscores. -/
def pyHexBody : List Char → Option Nat
  | '0' :: c :: rest =>
    if c == 'x' || c == 'X' then
      match rest with
      | '_' :: rest2 => pyDigits hexVal 16 rest2
      | _ => pyDigits hexVal 16 rest
    else pyDigitsGo hexVal 16 (c :: rest) 0
  | cs => pyDigits hexVal 16 cs

/-- Python `int(s, 16)` over a character list. -/
def pyHex16 (cs : List Char) : Option Int :=
  pySigned pyHexBody (pyStripChars isPySpace cs)

/-- `True` truthiness of an optional string path/query parameter:
Python's `if not x` fires on both a missing key and an empty string. -/
def truthy : Option String → Bool
  | none => false
  | some s => s != ""

/-- `str.replace("urn:", "")`: remove every left-to-right, non-overlapping
occurrence of `urn:`. -/
def removeUrn : List Char → List Char
  | 'u' :: 'r' :: 'n' :: ':' :: rest => removeUrn rest
  | c :: rest => c :: removeUrn rest
  | [] => []

/-- `str.replace("uuid:", "")`: remove every left-to-right, non-overlapping
occurrence of `uuid:`. -/
def removeUuidTag : List Char → List Char
  | 'u' :: 'u' :: 'i' :: 'd' :: ':' :: rest => removeUuidTag rest
  | c :: rest => c :: removeUuidTag rest
  | [] => []

/-- Normalization done by `uuid.UUID(hex)`: drop every `urn:` and `uuid:`,
strip surrounding braces, drop all dashes. -/
def pyUUIDNormalize (s : String) : List Char :=
  (pyStripChars (fun c => c == '{' || c == '}')
      (removeUuidTag (removeUrn s.toList))).filter
    (fun c => !(c == '-'))

/-- Whether `uuid.UUID(s)` succeeds: 32 characters after normalization and
the result parses as a base-16 integer. -/
def pyUUIDValid (s : String) : Bool :=
  let h := pyUUIDNormalize s
  h.length == 32 && (pyHex16 h).isSome

/-- The value of the constructed `UUID` object, as normalized lowercase hex
(only carried opaquely into domain-service calls). -/
def pyUUIDObj (s : String) : List Char :=
  (pyUUIDNormalize s).map Char.toLower

/-- The `ValueError` text raised by `int()` on a malformed literal. -/
def intError (s : String) : String :=
  "invalid literal for int() with base 10: '" ++ s ++ "'"

/-!
Part 2: the handler bodies of `src/handlers/produto_handler.py`.

Exceptions are values of `PyExc`; a handler body is a function from its
inputs and the outcome of its (single) domain-service call to a
`HandlerOutcome`: the result the handler returns or the `LambdaException`
it raises, the list of domain-service calls it made, and the structured
log lines it emitted.
-/

/-- The `LambdaException(status, message)` of `utils.lambda_decorators`:
an already classified failure carrying an HTTP status and message. -/
structure LambdaException where
  status : Nat
  message : String
deriving DecidableEq

/-- The exceptions that can cross a handler's `try` block: a classified
`LambdaException`, the domain `ValidationException` / `BusinessRuleException`
of `shared.domain.exceptions.base`, or any other `Exception` text. -/
inductive PyExc where
  | lambdaExc (status : Nat) (message : String)
  | validationExc (message : String)
  | businessRuleExc (message : String)
  | otherExc (text : String)
deriving DecidableEq

/-- `str(e)` as logged by the generic branches (`error=str(e)`). -/
def pyStr : PyExc → String
  | .lambdaExc _ m => m
  | .validationExc m => m
  | .businessRuleExc m => m
  | .otherExc t => t

/-- Response payloads: a serialized entity / list dict, or a `{message}` body. -/
inductive RespBody where
  | entity (payload : String)
  | message (m : String)
deriving DecidableEq

/-- A success envelope: status code plus body. -/
structure Resp where
  status : Nat
  data : RespBody
deriving DecidableEq

/-- Modelled from the spec: `success_response` of `utils.lambda_decorators`
(not part of this repository's sources) builds the success envelope with
status 200 ("201 for creation, 200 otherwise"). -/
def success_response (d : RespBody) : Resp := ⟨200, d⟩

/-- Modelled from the spec: `created_response` of `utils.lambda_decorators`
(not part of this repository's sources) builds the creation envelope with
status 201. -/
def created_response (d : RespBody) : Resp := ⟨201, d⟩

/-- Outcome of one domain-service call: a returned value or a raised exception. -/
inductive SvcResult (α : Type) where
  | ok (value : α)
  | exn (e : PyExc)

/-- One structured log line: the operation message and the `error=str(e)` field. -/
structure LogEntry where
  msg : String
  err : String
deriving DecidableEq

/-- A recorded call into `ProdutoApplicationService`, with its arguments. -/
inductive SvcCall where
  | createProduct (dto : String)
  | getProductById (u : List Char)
  | getProductBySku (sku : String)
  | getProducts (skip limit : Int)
  | updateProduct (u : List Char) (dto : String)
  | deleteProduct (u : List Char)
  | searchProducts (dto : String) (skip limit : Int)
  | getProductsByCategory (categoria : String) (skip limit : Int)
deriving DecidableEq

/-- What a handler's `try` block produces: a returned response or a raised
exception, still in `PyExc` form. -/
inductive TryResult where
  | ok (r : Resp)
  | exn (e : PyExc)
deriving DecidableEq

/-- The result a handler hands back to the outer pipeline: a returned
response or a raised `LambdaException`. -/
inductive HResult where
  | ok (r : Resp)
  | error (e : LambdaException)
deriving DecidableEq

/-- The handler's observable behaviour: its result (returned response or
raised `LambdaException`), the domain-service calls made, the log lines. -/
structure HandlerOutcome where
  result : HResult
  calls : List SvcCall
  logs : List LogEntry
deriving DecidableEq

/-- The `except LambdaException: raise / except Exception: log; raise 500`
cascade shared by the get, get-by-sku, list, delete and by-category handlers. -/
def runLE (op : String) : TryResult × List SvcCall → HandlerOutcome
  | (.ok r, cs) => ⟨.ok r, cs, []⟩
  | (.exn (.lambdaExc s m), cs) => ⟨.error ⟨s, m⟩, cs, []⟩
  | (.exn e, cs) => ⟨.error ⟨500, "Internal server error"⟩, cs, [⟨op, pyStr e⟩]⟩

/-- The create handler's cascade: `ValidationException` → 400,
`BusinessRuleException` → 409, any other exception (including a
`LambdaException`, which create has no passthrough branch for) → 500. -/
def runVBE (op : String) : TryResult × List SvcCall → HandlerOutcome
  | (.ok r, cs) => ⟨.ok r, cs, []⟩
  | (.exn (.validationExc m), cs) => ⟨.error ⟨400, m⟩, cs, []⟩
  | (.exn (.businessRuleExc m), cs) => ⟨.error ⟨409, m⟩, cs, []⟩
  | (.exn e, cs) => ⟨.error ⟨500, "Internal server error"⟩, cs, [⟨op, pyStr e⟩]⟩

/-- The update handler's cascade: `LambdaException` passthrough, then
`ValidationException` → 400, `BusinessRuleException` → 409, else 500. -/
def runLVBE (op : String) : TryResult × List SvcCall → HandlerOutcome
  | (.ok r, cs) => ⟨.ok r, cs, []⟩
  | (.exn (.lambdaExc s m), cs) => ⟨.error ⟨s, m⟩, cs, []⟩
  | (.exn (.validationExc m), cs) => ⟨.error ⟨400, m⟩, cs, []⟩
  | (.exn (.businessRuleExc m), cs) => ⟨.error ⟨409, m⟩, cs, []⟩
  | (.exn e, cs) => ⟨.error ⟨500, "Internal server error"⟩, cs, [⟨op, pyStr e⟩]⟩

/-- The search handler's cascade: `LambdaException` passthrough, then
`ValidationException` → 400, else (including `BusinessRuleException`) 500. -/
def runLVE (op : String) : TryResult × List SvcCall → HandlerOutcome
  | (.ok r, cs) => ⟨.ok r, cs, []⟩
  | (.exn (.lambdaExc s m), cs) => ⟨.error ⟨s, m⟩, cs, []⟩
  | (.exn (.validationExc m), cs) => ⟨.error ⟨400, m⟩, cs, []⟩
  | (.exn e, cs) => ⟨.error ⟨500, "Internal server error"⟩, cs, [⟨op, pyStr e⟩]⟩

/-- `int(query_params.get(key, d))`: the integer default when the key is
absent, otherwise Python `int()` on the string value. -/
def paramInt (q : Option String) (d : Int) : Option Int :=
  match q with
  | none => some d
  | some s => pyInt s

/-- Try block of `create_product_handler`: a single delegation to
`service.create_product(dto)`. -/
def create_product_try (dto : String) (svc : SvcResult String) :
    TryResult × List SvcCall :=
  match svc with
  | .ok p => (.ok (created_response (.entity p)), [.createProduct dto])
  | .exn e => (.exn e, [.createProduct dto])

/-- `create_product_handler`. -/
def create_product_handler (dto : String) (svc : SvcResult String) : HandlerOutcome :=
  runVBE "Create product error" (create_product_try dto svc)

/-- Try block of `get_product_handler`: require `product_id`, validate the
UUID, call `service.get_product_by_id`, 404 when nothing is returned. -/
def get_product_try (product_id : Option String) (svc : SvcResult (Option String)) :
    TryResult × List SvcCall :=
  if truthy product_id then
    if pyUUIDValid (product_id.getD "") then
      match svc with
      | .exn e => (.exn e, [.getProductById (pyUUIDObj (product_id.getD ""))])
      | .ok none =>
          (.exn (.lambdaExc 404 ("Product not found: " ++ product_id.getD "")),
            [.getProductById (pyUUIDObj (product_id.getD ""))])
      | .ok (some p) =>
          (.ok (success_response (.entity p)),
            [.getProductById (pyUUIDObj (product_id.getD ""))])
    else (.exn (.lambdaExc 400 "Invalid product_id format"), [])
  else (.exn (.lambdaExc 400 "product_id is required"), [])

/-- `get_product_handler`. -/
def get_product_handler (product_id : Option String) (svc : SvcResult (Option String)) :
    HandlerOutcome :=
  runLE "Get product error" (get_product_try product_id svc)

/-- Try block of `get_product_by_sku_handler`. -/
def get_product_by_sku_try (sku : Option String) (svc : SvcResult (Option String)) :
    TryResult × List SvcCall :=
  if truthy sku then
    match svc with
    | .exn e => (.exn e, [.getProductBySku (sku.getD "")])
    | .ok none =>
        (.exn (.lambdaExc 404 ("Product not found with SKU: " ++ sku.getD "")),
          [.getProductBySku (sku.getD "")])
    | .ok (some p) => (.ok (success_response (.entity p)), [.getProductBySku (sku.getD "")])
  else (.exn (.lambdaExc 400 "sku is required"), [])

/-- `get_product_by_sku_handler`. -/
def get_product_by_sku_handler (sku : Option String) (svc : SvcResult (Option String)) :
    HandlerOutcome :=
  runLE "Get product by SKU error" (get_product_by_sku_try sku svc)

/-- Try block of `list_products_handler`: parse `skip` then `limit`
(`int()` may raise `ValueError`), validate the bounds in that order,
then call `service.get_products(skip, limit)`. -/
def list_products_try (skipQ limitQ : Option String) (svc : SvcResult String) :
    TryResult × List SvcCall :=
  match paramInt skipQ 0 with
  | none => (.exn (.otherExc (intError (skipQ.getD ""))), [])
  | some skip =>
    match paramInt limitQ 100 with
    | none => (.exn (.otherExc (intError (limitQ.getD ""))), [])
    | some limit =>
      if skip < 0 then (.exn (.lambdaExc 400 "skip must be >= 0"), [])
      else if limit < 1 ∨ limit > 1000 then
        (.exn (.lambdaExc 400 "limit must be between 1 and 1000"), [])
      else
        match svc with
        | .exn e => (.exn e, [.getProducts skip limit])
        | .ok l => (.ok (success_response (.entity l)), [.getProducts skip limit])

/-- `list_products_handler`. -/
def list_products_handler (skipQ limitQ : Option String) (svc : SvcResult String) :
    HandlerOutcome :=
  runLE "List products error" (list_products_try skipQ limitQ svc)

/-- Try block of `update_product_handler`: same `product_id` checks as get,
then `service.update_product`, 404 when nothing is returned. -/
def update_product_try (product_id : Option String) (dto : String)
    (svc : SvcResult (Option String)) : TryResult × List SvcCall :=
  if truthy product_id then
    if pyUUIDValid (product_id.getD "") then
      match svc with
      | .exn e => (.exn e, [.updateProduct (pyUUIDObj (product_id.getD "")) dto])
      | .ok none =>
          (.exn (.lambdaExc 404 ("Product not found: " ++ product_id.getD "")),
            [.updateProduct (pyUUIDObj (product_id.getD "")) dto])
      | .ok (some p) =>
          (.ok (success_response (.entity p)),
            [.updateProduct (pyUUIDObj (product_id.getD "")) dto])
    else (.exn (.lambdaExc 400 "Invalid product_id format"), [])
  else (.exn (.lambdaExc 400 "product_id is required"), [])

/-- `update_product_handler`. -/
def update_product_handler (product_id : Option String) (dto : String)
    (svc : SvcResult (Option String)) : HandlerOutcome :=
  runLVBE "Update product error" (update_product_try product_id dto svc)

/-- Try block of `delete_product_handler`: `product_id` checks, then
`service.delete_product`; a falsy success flag is a 404. -/
def delete_product_try (product_id : Option String) (svc : SvcResult Bool) :
    TryResult × List SvcCall :=
  if truthy product_id then
    if pyUUIDValid (product_id.getD "") then
      match svc with
      | .exn e => (.exn e, [.deleteProduct (pyUUIDObj (product_id.getD ""))])
      | .ok false =>
          (.exn (.lambdaExc 404 ("Product not found: " ++ product_id.getD "")),
            [.deleteProduct (pyUUIDObj (product_id.getD ""))])
      | .ok true =>
          (.ok (success_response (.message "Product deleted successfully")),
            [.deleteProduct (pyUUIDObj (product_id.getD ""))])
    else (.exn (.lambdaExc 400 "Invalid product_id format"), [])
  else (.exn (.lambdaExc 400 "product_id is required"), [])

/-- `delete_product_handler`. -/
def delete_product_handler (product_id : Option String) (svc : SvcResult Bool) :
    HandlerOutcome :=
  runLE "Delete product error" (delete_product_try product_id svc)

/-- Try block of `search_products_handler`: pagination exactly as in list,
then `service.search_products(dto, skip, limit)`. -/
def search_products_try (dto : String) (skipQ limitQ : Option String)
    (svc : SvcResult String) : TryResult × List SvcCall :=
  match paramInt skipQ 0 with
  | none => (.exn (.otherExc (intError (skipQ.getD ""))), [])
  | some skip =>
    match paramInt limitQ 100 with
    | none => (.exn (.otherExc (intError (limitQ.getD ""))), [])
    | some limit =>
      if skip < 0 then (.exn (.lambdaExc 400 "skip must be >= 0"), [])
      else if limit < 1 ∨ limit > 1000 then
        (.exn (.lambdaExc 400 "limit must be between 1 and 1000"), [])
      else
        match svc with
        | .exn e => (.exn e, [.searchProducts dto skip limit])
        | .ok l => (.ok (success_response (.entity l)), [.searchProducts dto skip limit])

/-- `search_products_handler`. -/
def search_products_handler (dto : String) (skipQ limitQ : Option String)
    (svc : SvcResult String) : HandlerOutcome :=
  runLVE "Search products error" (search_products_try dto skipQ limitQ svc)

/-- Try block of `get_products_by_category_handler`: require `categoria`,
pagination as in list, then `service.get_products_by_category`. -/
def get_products_by_category_try (categoria : Option String)
    (skipQ limitQ : Option String) (svc : SvcResult String) :
    TryResult × List SvcCall :=
  if truthy categoria then
    match paramInt skipQ 0 with
    | none => (.exn (.otherExc (intError (skipQ.getD ""))), [])
    | some skip =>
      match paramInt limitQ 100 with
      | none => (.exn (.otherExc (intError (limitQ.getD ""))), [])
      | some limit =>
        if skip < 0 then (.exn (.lambdaExc 400 "skip must be >= 0"), [])
        else if limit < 1 ∨ limit > 1000 then
          (.exn (.lambdaExc 400 "limit must be between 1 and 1000"), [])
        else
          match svc with
          | .exn e => (.exn e, [.getProductsByCategory (categoria.getD "") skip limit])
          | .ok l =>
              (.ok (success_response (.entity l)),
                [.getProductsByCategory (categoria.getD "") skip limit])
  else (.exn (.lambdaExc 400 "categoria is required"), [])

/-- `get_products_by_category_handler`. -/
def get_products_by_category_handler (categoria : Option String)
    (skipQ limitQ : Option String) (svc : SvcResult String) : HandlerOutcome :=
  runLE "Get products by category error" (get_products_by_category_try categoria skipQ limitQ svc)

/-! The permission string each handler's `require_permission` decorator
declares, read off the decorator stacks of `produto_handler.py`. -/

/-- Permission demanded by `create_product_handler` (line 30). -/
def create_product_permission : String := "estoque:write"

/-- Permission demanded by `get_product_handler` (line 54). -/
def get_product_permission : String := "estoque:write"

/-- Permission demanded by `get_product_by_sku_handler` (line 88). -/
def get_product_by_sku_permission : String := "estoque:write"

/-- Permission demanded by `list_products_handler` (line 116). -/
def list_products_permission : String := "estoque:write"

/-- Permission demanded by `update_product_handler` (line 147). -/
def update_product_permission : String := "estoque:write"

/-- Permission demanded by `delete_product_handler` (line 186). -/
def delete_product_permission : String := "estoque:write"

/-- Permission demanded by `search_products_handler` (line 222). -/
def search_products_permission : String := "estoque:write"

/-- Permission demanded by `get_products_by_category_handler` (line 256). -/
def get_products_by_category_permission : String := "estoque:write"

/-- Modelled from the spec: the `validate_request_body` pipeline stage of
`utils.lambda_decorators` (absent from this repository's sources). The Body
Validator runs before the handler body; its outcome is either a validated
DTO or a validation failure message. -/
inductive BodyValidation where
  | valid (dto : String)
  | invalid (message : String)

/-- Modelled from the spec: a full `POST /products/search` invocation past
the auth stage — on body-validation failure the pipeline short-circuits
with a 400 Error Signal carrying the validator's message, before the
handler body (and its pagination checks) runs; on success the validated
DTO is passed to `search_products_handler`. -/
def search_products_invocation (bv : BodyValidation) (skipQ limitQ : Option String)
    (svc : SvcResult String) : HandlerOutcome :=
  match bv with
  | .invalid m => ⟨.error ⟨400, m⟩, [], []⟩
  | .valid dto => search_products_handler dto skipQ limitQ svc

/-- Exceptions with no dedicated branch in the `LambdaException`-then-generic
cascade (get, get-by-sku, list, delete, by-category). -/
def unhandledLE : PyExc → Bool
  | .lambdaExc _ _ => false
  | _ => true

/-- Exceptions with no dedicated branch in the search handler's cascade. -/
def unhandledLVE : PyExc → Bool
  | .lambdaExc _ _ => false
  | .validationExc _ => false
  | _ => true

/-- Exceptions neither a `LambdaException` nor mapped by the create/update
cascades (for create the `LambdaException` exclusion comes from the claim's
own scope, since create's generic branch does catch it). -/
def unhandledLVBE : PyExc → Bool
  | .lambdaExc _ _ => false
  | .validationExc _ => false
  | .businessRuleExc _ => false
  | _ => true

/-! Part 3: the claims. -/

theorem truthy_some {s : String} (h : s ≠ "") : truthy (some s) = true := by
  simp [truthy, h]

/-- C1 (counterexample): the claim says the create handler demands the
permission string "produto:create"; in the code its `require_permission`
decorator demands "estoque:write". -/
theorem claim_C1_counterexample : create_product_permission ≠ "produto:create" := by
  decide

/-- C1 (amended): every one of the eight authenticated handlers demands the
same permission string "estoque:write"; the per-operation produto:*
permissions of the spec's interface table appear nowhere in the code. -/
theorem claim_C1 :
    create_product_permission = "estoque:write" ∧
    get_product_permission = "estoque:write" ∧
    get_product_by_sku_permission = "estoque:write" ∧
    list_products_permission = "estoque:write" ∧
    update_product_permission = "estoque:write" ∧
    delete_product_permission = "estoque:write" ∧
    search_products_permission = "estoque:write" ∧
    get_products_by_category_permission = "estoque:write" :=
  ⟨rfl, rfl, rfl, rfl, rfl, rfl, rfl, rfl⟩

/-- C2 (counterexample): the create handler has no `except LambdaException:
raise` branch, so a `LambdaException(404, ...)` raised by the
domain-service call is caught by its generic branch and re-wrapped into the
unclassified 500 instead of propagating unchanged. -/
theorem claim_C2_counterexample :
    (create_product_handler "dto" (.exn (.lambdaExc 404 "already classified"))).result
        = .error ⟨500, "Internal server error"⟩ ∧
    (create_product_handler "dto" (.exn (.lambdaExc 404 "already classified"))).result
        ≠ .error ⟨404, "already classified"⟩ :=
  ⟨rfl, by decide⟩

/-- C2 (amended): in the seven handlers other than create, a
`LambdaException` raised by the domain-service call propagates out of the
handler unchanged (whenever the pre-checks let the call happen); the create
handler alone re-wraps it into the unclassified 500. -/
theorem claim_C2 (s : Nat) (m : String) (pid sku cat dto : String)
    (hpid : pid ≠ "") (hU : pyUUIDValid pid = true) (hsku : sku ≠ "") (hcat : cat ≠ "")
    (skipQ limitQ : Option String) (skip limit : Int)
    (h₁ : paramInt skipQ 0 = some skip) (h₂ : paramInt limitQ 100 = some limit)
    (h₃ : 0 ≤ skip) (h₄ : 1 ≤ limit) (h₅ : limit ≤ 1000) :
    (get_product_handler (some pid) (.exn (.lambdaExc s m))).result = .error ⟨s, m⟩ ∧
    (get_product_by_sku_handler (some sku) (.exn (.lambdaExc s m))).result = .error ⟨s, m⟩ ∧
    (list_products_handler skipQ limitQ (.exn (.lambdaExc s m))).result = .error ⟨s, m⟩ ∧
    (update_product_handler (some pid) dto (.exn (.lambdaExc s m))).result = .error ⟨s, m⟩ ∧
    (delete_product_handler (some pid) (.exn (.lambdaExc s m))).result = .error ⟨s, m⟩ ∧
    (search_products_handler dto skipQ limitQ (.exn (.lambdaExc s m))).result = .error ⟨s, m⟩ ∧
    (get_products_by_category_handler (some cat) skipQ limitQ (.exn (.lambdaExc s m))).result
        = .error ⟨s, m⟩ ∧
    (create_product_handler dto (.exn (.lambdaExc s m))).result
        = .error ⟨500, "Internal server error"⟩ := by
  have hnsk : ¬ skip < 0 := not_lt.mpr h₃
  have hnlim : ¬ (limit < 1 ∨ limit > 1000) := by omega
  refine ⟨?_, ?_, ?_, ?_, ?_, ?_, ?_, ?_⟩
  · simp [get_product_handler, get_product_try, runLE, truthy_some hpid, hU]
  · simp [get_product_by_sku_handler, get_product_by_sku_try, runLE, truthy_some hsku]
  · simp [list_products_handler, list_products_try, runLE, h₁, h₂, hnsk, hnlim]
  · simp [update_product_handler, update_product_try, runLVBE, truthy_some hpid, hU]
  · simp [delete_product_handler, delete_product_try, runLE, truthy_some hpid, hU]
  · simp [search_products_handler, search_products_try, runLVE, h₁, h₂, hnsk, hnlim]
  · simp [get_products_by_category_handler, get_products_by_category_try, runLE,
      truthy_some hcat, h₁, h₂, hnsk, hnlim]
  · simp [create_product_handler, create_product_try, runVBE]

/-- C2 (witness): concrete pass-through of a `LambdaException(404, "x")` in
all seven handlers, and its re-wrap into a 500 by create. -/
theorem claim_C2_witness :
    (get_product_handler (some "12345678123456781234567812345678")
        (.exn (.lambdaExc 404 "x"))).result = .error ⟨404, "x"⟩ ∧
    (get_product_by_sku_handler (some "SKU-1") (.exn (.lambdaExc 404 "x"))).result
        = .error ⟨404, "x"⟩ ∧
    (list_products_handler none none (.exn (.lambdaExc 404 "x"))).result
        = .error ⟨404, "x"⟩ ∧
    (update_product_handler (some "12345678123456781234567812345678") "d"
        (.exn (.lambdaExc 404 "x"))).result = .error ⟨404, "x"⟩ ∧
    (delete_product_handler (some "12345678123456781234567812345678")
        (.exn (.lambdaExc 404 "x"))).result = .error ⟨404, "x"⟩ ∧
    (search_products_handler "d" none none (.exn (.lambdaExc 404 "x"))).result
        = .error ⟨404, "x"⟩ ∧
    (get_products_by_category_handler (some "books") none none
        (.exn (.lambdaExc 404 "x"))).result = .error ⟨404, "x"⟩ ∧
    (create_product_handler "d" (.exn (.lambdaExc 404 "x"))).result
        = .error ⟨500, "Internal server error"⟩ :=
  claim_C2 404 "x" "12345678123456781234567812345678" "SKU-1" "books" "d"
    (by decide) (by decide) (by decide) (by decide) none none 0 100 rfl rfl
    (by decide) (by decide) (by decide)

/-- C3 (counterexample): when skip = "-1" and limit = "2000" — both
integer-valued, with limit outside [1,1000] — the list handler answers with
the skip message, not the limit message the claim promises whenever
limit ∉ [1,1000] (skip is checked first). -/
theorem claim_C3_counterexample :
    pyInt "2000" = some 2000 ∧
    (list_products_handler (some "-1") (some "2000") (.ok "L")).result
        = .error ⟨400, "skip must be >= 0"⟩ ∧
    (list_products_handler (some "-1") (some "2000") (.ok "L")).result
        ≠ .error ⟨400, "limit must be between 1 and 1000"⟩ :=
  ⟨rfl, rfl, by decide⟩

/-- C3 (amended): for list, search and by-category invocations with
integer-valued pagination parameters, skip < 0 yields the 400
"skip must be >= 0" before any domain-service call; limit < 1 or
limit > 1000 yields the 400 "limit must be between 1 and 1000" before any
domain-service call *provided skip ≥ 0* (the skip check runs first);
absent parameters default to skip = 0 and limit = 100, with which the
domain service is then called. -/
theorem claim_C3 (svc : SvcResult String) (cat dto : String) (hcat : cat ≠ "")
    (skipA limitA : Option String) (sA lA : Int)
    (hA1 : paramInt skipA 0 = some sA) (hA2 : paramInt limitA 100 = some lA)
    (hA3 : sA < 0)
    (skipB limitB : Option String) (sB lB : Int)
    (hB1 : paramInt skipB 0 = some sB) (hB2 : paramInt limitB 100 = some lB)
    (hB3 : 0 ≤ sB) (hB4 : lB < 1 ∨ lB > 1000) :
    ((list_products_handler skipA limitA svc).result = .error ⟨400, "skip must be >= 0"⟩
      ∧ (list_products_handler skipA limitA svc).calls = []) ∧
    ((search_products_handler dto skipA limitA svc).result = .error ⟨400, "skip must be >= 0"⟩
      ∧ (search_products_handler dto skipA limitA svc).calls = []) ∧
    ((get_products_by_category_handler (some cat) skipA limitA svc).result
        = .error ⟨400, "skip must be >= 0"⟩
      ∧ (get_products_by_category_handler (some cat) skipA limitA svc).calls = []) ∧
    ((list_products_handler skipB limitB svc).result
        = .error ⟨400, "limit must be between 1 and 1000"⟩
      ∧ (list_products_handler skipB limitB svc).calls = []) ∧
    ((search_products_handler dto skipB limitB svc).result
        = .error ⟨400, "limit must be between 1 and 1000"⟩
      ∧ (search_products_handler dto skipB limitB svc).calls = []) ∧
    ((get_products_by_category_handler (some cat) skipB limitB svc).result
        = .error ⟨400, "limit must be between 1 and 1000"⟩
      ∧ (get_products_by_category_handler (some cat) skipB limitB svc).calls = []) ∧
    ((list_products_handler none none svc).calls = [.getProducts 0 100]) ∧
    ((search_products_handler dto none none svc).calls = [.searchProducts dto 0 100]) ∧
    ((get_products_by_category_handler (some cat) none none svc).calls
        = [.getProductsByCategory cat 0 100]) := by
  have hnsB : ¬ sB < 0 := not_lt.mpr hB3
  refine ⟨?_, ?_, ?_, ?_, ?_, ?_, ?_, ?_, ?_⟩
  · simp [list_products_handler, list_products_try, runLE, hA1, hA2, hA3]
  · simp [search_products_handler, search_products_try, runLVE, hA1, hA2, hA3]
  · simp [get_products_by_category_handler, get_products_by_category_try, runLE,
      truthy_some hcat, hA1, hA2, hA3]
  · simp [list_products_handler, list_products_try, runLE, hB1, hB2, hnsB, hB4]
  · simp [search_products_handler, search_products_try, runLVE, hB1, hB2, hnsB, hB4]
  · simp [get_products_by_category_handler, get_products_by_category_try, runLE,
      truthy_some hcat, hB1, hB2, hnsB, hB4]
  · rcases svc with l | e
    · simp [list_products_handler, list_products_try, runLE, paramInt]
    · cases e <;> simp [list_products_handler, list_products_try, runLE, paramInt]
  · rcases svc with l | e
    · simp [search_products_handler, search_products_try, runLVE, paramInt]
    · cases e <;> simp [search_products_handler, search_products_try, runLVE, paramInt]
  · rcases svc with l | e
    · simp [get_products_by_category_handler, get_products_by_category_try, runLE,
        truthy_some hcat, paramInt]
    · cases e <;> simp [get_products_by_category_handler, get_products_by_category_try,
        runLE, truthy_some hcat, paramInt]

/-- C3 (witness): the skip violation at skip = "-1", the limit violation at
limit = "2000", and the 0/100 defaults, all on concrete invocations. -/
theorem claim_C3_witness :
    ((list_products_handler (some "-1") none (.ok "L")).result
        = .error ⟨400, "skip must be >= 0"⟩
      ∧ (list_products_handler (some "-1") none (.ok "L")).calls = []) ∧
    ((search_products_handler "d" (some "-1") none (.ok "L")).result
        = .error ⟨400, "skip must be >= 0"⟩
      ∧ (search_products_handler "d" (some "-1") none (.ok "L")).calls = []) ∧
    ((get_products_by_category_handler (some "books") (some "-1") none (.ok "L")).result
        = .error ⟨400, "skip must be >= 0"⟩
      ∧ (get_products_by_category_handler (some "books") (some "-1") none (.ok "L")).calls
          = []) ∧
    ((list_products_handler none (some "2000") (.ok "L")).result
        = .error ⟨400, "limit must be between 1 and 1000"⟩
      ∧ (list_products_handler none (some "2000") (.ok "L")).calls = []) ∧
    ((search_products_handler "d" none (some "2000") (.ok "L")).result
        = .error ⟨400, "limit must be between 1 and 1000"⟩
      ∧ (search_products_handler "d" none (some "2000") (.ok "L")).calls = []) ∧
    ((get_products_by_category_handler (some "books") none (some "2000") (.ok "L")).result
        = .error ⟨400, "limit must be between 1 and 1000"⟩
      ∧ (get_products_by_category_handler (some "books") none (some "2000") (.ok "L")).calls
          = []) ∧
    ((list_products_handler none none (.ok "L")).calls = [.getProducts 0 100]) ∧
    ((search_products_handler "d" none none (.ok "L")).calls = [.searchProducts "d" 0 100]) ∧
    ((get_products_by_category_handler (some "books") none none (.ok "L")).calls
        = [.getProductsByCategory "books" 0 100]) :=
  claim_C3 (.ok "L") "books" "d" (by decide)
    (some "-1") none (-1) 100 rfl rfl (by decide)
    none (some "2000") 0 2000 rfl rfl (by decide) (by decide)

/-- C4 (counterexample): "regardless of the search DTO's content" fails:
when the body fails validation the pipeline's 400 carries the validator's
message, not "skip must be >= 0"; and even with a valid body, a
non-integer limit string turns the invocation into a 500. -/
theorem claim_C4_counterexample :
    (search_products_invocation (.invalid "query: field required") (some "-1") none
        (.ok "R")).result = .error ⟨400, "query: field required"⟩ ∧
    (search_products_invocation (.invalid "query: field required") (some "-1") none
        (.ok "R")).result ≠ .error ⟨400, "skip must be >= 0"⟩ ∧
    (search_products_invocation (.valid "d") (some "-1") (some "x") (.ok "R")).result
        = .error ⟨500, "Internal server error"⟩ :=
  ⟨rfl, by decide, rfl⟩

/-- C4 (amended): a POST /products/search invocation with skip = "-1" whose
body passes validation and whose limit parameter parses as an integer is
answered 400 "skip must be >= 0" before any domain-service call,
independently of the DTO's content; when the body fails validation the 400
carries the validator's message instead. -/
theorem claim_C4 (dto m : String) (limitQ : Option String) (limit : Int)
    (svc : SvcResult String) (h : paramInt limitQ 100 = some limit) :
    ((search_products_invocation (.valid dto) (some "-1") limitQ svc).result
        = .error ⟨400, "skip must be >= 0"⟩) ∧
    ((search_products_invocation (.valid dto) (some "-1") limitQ svc).calls = []) ∧
    ((search_products_invocation (.invalid m) (some "-1") limitQ svc).result
        = .error ⟨400, m⟩) := by
  have hs : paramInt (some "-1") 0 = some (-1) := rfl
  refine ⟨?_, ?_, rfl⟩ <;>
    simp [search_products_invocation, search_products_handler, search_products_try,
      runLVE, hs, h]

/-- C4 (witness): the amended behaviour on a concrete invocation with a
valid body, skip = "-1" and the default limit. -/
theorem claim_C4_witness :
    ((search_products_invocation (.valid "d") (some "-1") none (.ok "R")).result
        = .error ⟨400, "skip must be >= 0"⟩) ∧
    ((search_products_invocation (.valid "d") (some "-1") none (.ok "R")).calls = []) ∧
    ((search_products_invocation (.invalid "bad body") (some "-1") none (.ok "R")).result
        = .error ⟨400, "bad body"⟩) :=
  claim_C4 "d" "bad body" none 100 (.ok "R") rfl

/-- C5 (counterexample): a non-integer skip string is not answered with a
pagination 400: `int("abc")` raises `ValueError`, which falls into the
generic branch and surfaces as the 500 "Internal server error". -/
theorem claim_C5_counterexample :
    pyInt "abc" = none ∧
    (list_products_handler (some "abc") none (.ok "L")).result
        = .error ⟨500, "Internal server error"⟩ ∧
    (list_products_handler (some "abc") none (.ok "L")).result
        ≠ .error ⟨400, "skip must be >= 0"⟩ :=
  ⟨rfl, rfl, by decide⟩

/-- C5 (amended): for list, search and by-category invocations, a skip or
limit query parameter that is not a well-formed integer string makes the
handler answer 500 "Internal server error" (the `ValueError` raised by
`int()` is caught by the generic branch), not a pagination 400. -/
theorem claim_C5 (s t cat dto : String) (hs : pyInt s = none) (ht : pyInt t = none)
    (hcat : cat ≠ "") (skipQ limitQ : Option String) (skip : Int)
    (hsk : paramInt skipQ 0 = some skip) (svc : SvcResult String) :
    ((list_products_handler (some s) limitQ svc).result
        = .error ⟨500, "Internal server error"⟩) ∧
    ((search_products_handler dto (some s) limitQ svc).result
        = .error ⟨500, "Internal server error"⟩) ∧
    ((get_products_by_category_handler (some cat) (some s) limitQ svc).result
        = .error ⟨500, "Internal server error"⟩) ∧
    ((list_products_handler skipQ (some t) svc).result
        = .error ⟨500, "Internal server error"⟩) ∧
    ((search_products_handler dto skipQ (some t) svc).result
        = .error ⟨500, "Internal server error"⟩) ∧
    ((get_products_by_category_handler (some cat) skipQ (some t) svc).result
        = .error ⟨500, "Internal server error"⟩) := by
  have hs' : paramInt (some s) 0 = none := by simp [paramInt, hs]
  have ht' : paramInt (some t) 100 = none := by simp [paramInt, ht]
  refine ⟨?_, ?_, ?_, ?_, ?_, ?_⟩
  · simp [list_products_handler, list_products_try, runLE, hs']
  · simp [search_products_handler, search_products_try, runLVE, hs']
  · simp [get_products_by_category_handler, get_products_by_category_try, runLE,
      truthy_some hcat, hs']
  · simp [list_products_handler, list_products_try, runLE, hsk, ht']
  · simp [search_products_handler, search_products_try, runLVE, hsk, ht']
  · simp [get_products_by_category_handler, get_products_by_category_try, runLE,
      truthy_some hcat, hsk, ht']

/-- C5 (witness): skip = "abc" and limit = "xyz" on concrete invocations of
the three paginated handlers all surface as 500. -/
theorem claim_C5_witness :
    ((list_products_handler (some "abc") none (.ok "L")).result
        = .error ⟨500, "Internal server error"⟩) ∧
    ((search_products_handler "d" (some "abc") none (.ok "L")).result
        = .error ⟨500, "Internal server error"⟩) ∧
    ((get_products_by_category_handler (some "books") (some "abc") none (.ok "L")).result
        = .error ⟨500, "Internal server error"⟩) ∧
    ((list_products_handler none (some "xyz") (.ok "L")).result
        = .error ⟨500, "Internal server error"⟩) ∧
    ((search_products_handler "d" none (some "xyz") (.ok "L")).result
        = .error ⟨500, "Internal server error"⟩) ∧
    ((get_products_by_category_handler (some "books") none (some "xyz") (.ok "L")).result
        = .error ⟨500, "Internal server error"⟩) :=
  claim_C5 "abc" "xyz" "books" "d" rfl rfl (by decide) none none 0 rfl (.ok "L")

/-- C6: for get-by-id, update and delete, a non-empty `product_id` that is
not a valid UUID is answered 400 "Invalid product_id format" before any
domain-service call. -/
theorem claim_C6 (pid dto : String) (h₁ : pid ≠ "") (h₂ : pyUUIDValid pid = false)
    (svcG svcU : SvcResult (Option String)) (svcD : SvcResult Bool) :
    ((get_product_handler (some pid) svcG).result
        = .error ⟨400, "Invalid product_id format"⟩
      ∧ (get_product_handler (some pid) svcG).calls = []) ∧
    ((update_product_handler (some pid) dto svcU).result
        = .error ⟨400, "Invalid product_id format"⟩
      ∧ (update_product_handler (some pid) dto svcU).calls = []) ∧
    ((delete_product_handler (some pid) svcD).result
        = .error ⟨400, "Invalid product_id format"⟩
      ∧ (delete_product_handler (some pid) svcD).calls = []) := by
  refine ⟨?_, ?_, ?_⟩
  · simp [get_product_handler, get_product_try, runLE, truthy_some h₁, h₂]
  · simp [update_product_handler, update_product_try, runLVBE, truthy_some h₁, h₂]
  · simp [delete_product_handler, delete_product_try, runLE, truthy_some h₁, h₂]

/-- C6 (witness): `product_id` = "not-a-uuid" on concrete invocations. -/
theorem claim_C6_witness :
    ((get_product_handler (some "not-a-uuid") (.ok (some "P"))).result
        = .error ⟨400, "Invalid product_id format"⟩
      ∧ (get_product_handler (some "not-a-uuid") (.ok (some "P"))).calls = []) ∧
    ((update_product_handler (some "not-a-uuid") "d" (.ok (some "P"))).result
        = .error ⟨400, "Invalid product_id format"⟩
      ∧ (update_product_handler (some "not-a-uuid") "d" (.ok (some "P"))).calls = []) ∧
    ((delete_product_handler (some "not-a-uuid") (.ok true)).result
        = .error ⟨400, "Invalid product_id format"⟩
      ∧ (delete_product_handler (some "not-a-uuid") (.ok true)).calls = []) :=
  claim_C6 "not-a-uuid" "d" (by decide) (by decide) (.ok (some "P")) (.ok (some "P"))
    (.ok true)

/-- C7: with a well-formed UUID and an empty domain result, get-by-id,
update and delete answer 404 "Product not found: <product_id>", and
get-by-sku answers 404 "Product not found with SKU: <sku>". -/
theorem claim_C7 (pid sku dto : String) (h₁ : pid ≠ "") (h₂ : pyUUIDValid pid = true)
    (h₃ : sku ≠ "") :
    ((get_product_handler (some pid) (.ok none)).result
        = .error ⟨404, "Product not found: " ++ pid⟩) ∧
    ((update_product_handler (some pid) dto (.ok none)).result
        = .error ⟨404, "Product not found: " ++ pid⟩) ∧
    ((delete_product_handler (some pid) (.ok false)).result
        = .error ⟨404, "Product not found: " ++ pid⟩) ∧
    ((get_product_by_sku_handler (some sku) (.ok none)).result
        = .error ⟨404, "Product not found with SKU: " ++ sku⟩) := by
  refine ⟨?_, ?_, ?_, ?_⟩
  · simp [get_product_handler, get_product_try, runLE, truthy_some h₁, h₂]
  · simp [update_product_handler, update_product_try, runLVBE, truthy_some h₁, h₂]
  · simp [delete_product_handler, delete_product_try, runLE, truthy_some h₁, h₂]
  · simp [get_product_by_sku_handler, get_product_by_sku_try, runLE, truthy_some h₃]

/-- C7 (witness): concrete 404s for an unknown UUID and an unknown SKU. -/
theorem claim_C7_witness :
    ((get_product_handler (some "12345678-1234-5678-1234-567812345678") (.ok none)).result
        = .error ⟨404, "Product not found: 12345678-1234-5678-1234-567812345678"⟩) ∧
    ((update_product_handler (some "12345678-1234-5678-1234-567812345678") "d"
        (.ok none)).result
        = .error ⟨404, "Product not found: 12345678-1234-5678-1234-567812345678"⟩) ∧
    ((delete_product_handler (some "12345678-1234-5678-1234-567812345678")
        (.ok false)).result
        = .error ⟨404, "Product not found: 12345678-1234-5678-1234-567812345678"⟩) ∧
    ((get_product_by_sku_handler (some "SKU-1") (.ok none)).result
        = .error ⟨404, "Product not found with SKU: SKU-1"⟩) :=
  claim_C7 "12345678-1234-5678-1234-567812345678" "SKU-1" "d" (by decide) (by decide)
    (by decide)

/-- C8: the create handler returns the 201 envelope with the created
payload on domain success, maps a domain `ValidationException` to a 400
with the domain message, and a `BusinessRuleException` to a 409 with the
domain message. -/
theorem claim_C8 :
    (∀ dto p, (create_product_handler dto (.ok p)).result = .ok ⟨201, .entity p⟩) ∧
    (∀ dto m, (create_product_handler dto (.exn (.validationExc m))).result
        = .error ⟨400, m⟩) ∧
    (∀ dto m, (create_product_handler dto (.exn (.businessRuleExc m))).result
        = .error ⟨409, m⟩) :=
  ⟨fun _ _ => rfl, fun _ _ => rfl, fun _ _ => rfl⟩

/-- C9: in every handler, an exception with no dedicated branch surfaces as
the 500 whose caller-visible message is exactly "Internal server error",
and is logged exactly once with the operation's message and `str(e)`. -/
theorem claim_C9 (e₁ e₂ e₃ : PyExc) (pid sku cat dto : String)
    (hpid : pid ≠ "") (hU : pyUUIDValid pid = true) (hsku : sku ≠ "") (hcat : cat ≠ "")
    (skipQ limitQ : Option String) (skip limit : Int)
    (h₁ : paramInt skipQ 0 = some skip) (h₂ : paramInt limitQ 100 = some limit)
    (h₃ : 0 ≤ skip) (h₄ : 1 ≤ limit) (h₅ : limit ≤ 1000)
    (hLE : unhandledLE e₁ = true) (hLVE : unhandledLVE e₂ = true)
    (hLVBE : unhandledLVBE e₃ = true) :
    ((get_product_handler (some pid) (.exn e₁)).result
        = .error ⟨500, "Internal server error"⟩
      ∧ (get_product_handler (some pid) (.exn e₁)).logs
          = [⟨"Get product error", pyStr e₁⟩]) ∧
    ((get_product_by_sku_handler (some sku) (.exn e₁)).result
        = .error ⟨500, "Internal server error"⟩
      ∧ (get_product_by_sku_handler (some sku) (.exn e₁)).logs
          = [⟨"Get product by SKU error", pyStr e₁⟩]) ∧
    ((list_products_handler skipQ limitQ (.exn e₁)).result
        = .error ⟨500, "Internal server error"⟩
      ∧ (list_products_handler skipQ limitQ (.exn e₁)).logs
          = [⟨"List products error", pyStr e₁⟩]) ∧
    ((delete_product_handler (some pid) (.exn e₁)).result
        = .error ⟨500, "Internal server error"⟩
      ∧ (delete_product_handler (some pid) (.exn e₁)).logs
          = [⟨"Delete product error", pyStr e₁⟩]) ∧
    ((get_products_by_category_handler (some cat) skipQ limitQ (.exn e₁)).result
        = .error ⟨500, "Internal server error"⟩
      ∧ (get_products_by_category_handler (some cat) skipQ limitQ (.exn e₁)).logs
          = [⟨"Get products by category error", pyStr e₁⟩]) ∧
    ((search_products_handler dto skipQ limitQ (.exn e₂)).result
        = .error ⟨500, "Internal server error"⟩
      ∧ (search_products_handler dto skipQ limitQ (.exn e₂)).logs
          = [⟨"Search products error", pyStr e₂⟩]) ∧
    ((create_product_handler dto (.exn e₃)).result
        = .error ⟨500, "Internal server error"⟩
      ∧ (create_product_handler dto (.exn e₃)).logs
          = [⟨"Create product error", pyStr e₃⟩]) ∧
    ((update_product_handler (some pid) dto (.exn e₃)).result
        = .error ⟨500, "Internal server error"⟩
      ∧ (update_product_handler (some pid) dto (.exn e₃)).logs
          = [⟨"Update product error", pyStr e₃⟩]) := by
  have hnsk : ¬ skip < 0 := not_lt.mpr h₃
  have hnlim : ¬ (limit < 1 ∨ limit > 1000) := by omega
  refine ⟨?_, ?_, ?_, ?_, ?_, ?_, ?_, ?_⟩
  · cases e₁ <;> simp_all [get_product_handler, get_product_try, runLE,
      truthy_some hpid, unhandledLE]
  · cases e₁ <;> simp_all [get_product_by_sku_handler, get_product_by_sku_try, runLE,
      truthy_some hsku, unhandledLE]
  · obtain ⟨s, m⟩ | m | m | t := e₁
    · simp [unhandledLE] at hLE
    all_goals simp [list_products_handler, list_products_try, runLE, h₁, h₂, hnsk,
      hnlim, pyStr]
  · cases e₁ <;> simp_all [delete_product_handler, delete_product_try, runLE,
      truthy_some hpid, unhandledLE]
  · obtain ⟨s, m⟩ | m | m | t := e₁
    · simp [unhandledLE] at hLE
    all_goals simp [get_products_by_category_handler, get_products_by_category_try,
      runLE, truthy_some hcat, h₁, h₂, hnsk, hnlim, pyStr]
  · obtain ⟨s, m⟩ | m | m | t := e₂
    · simp [unhandledLVE] at hLVE
    · simp [unhandledLVE] at hLVE
    all_goals simp [search_products_handler, search_products_try, runLVE, h₁, h₂,
      hnsk, hnlim, pyStr]
  · cases e₃ <;> simp_all [create_product_handler, create_product_try, runVBE,
      unhandledLVBE]
  · cases e₃ <;> simp_all [update_product_handler, update_product_try, runLVBE,
      truthy_some hpid, unhandledLVBE]

/-- C9 (witness): a domain `ValidationException` in the read handlers, a
`BusinessRuleException` in search, and a plain exception in create/update,
each surfacing as the logged-once 500 on concrete invocations. -/
theorem claim_C9_witness :
    ((get_product_handler (some "12345678123456781234567812345678")
        (.exn (.validationExc "v"))).result = .error ⟨500, "Internal server error"⟩
      ∧ (get_product_handler (some "12345678123456781234567812345678")
          (.exn (.validationExc "v"))).logs = [⟨"Get product error", pyStr (.validationExc "v")⟩]) ∧
    ((get_product_by_sku_handler (some "SKU-1") (.exn (.validationExc "v"))).result
        = .error ⟨500, "Internal server error"⟩
      ∧ (get_product_by_sku_handler (some "SKU-1") (.exn (.validationExc "v"))).logs
          = [⟨"Get product by SKU error", pyStr (.validationExc "v")⟩]) ∧
    ((list_products_handler none none (.exn (.validationExc "v"))).result
        = .error ⟨500, "Internal server error"⟩
      ∧ (list_products_handler none none (.exn (.validationExc "v"))).logs
          = [⟨"List products error", pyStr (.validationExc "v")⟩]) ∧
    ((delete_product_handler (some "12345678123456781234567812345678")
        (.exn (.validationExc "v"))).result = .error ⟨500, "Internal server error"⟩
      ∧ (delete_product_handler (some "12345678123456781234567812345678")
          (.exn (.validationExc "v"))).logs = [⟨"Delete product error", pyStr (.validationExc "v")⟩]) ∧
    ((get_products_by_category_handler (some "books") none none
        (.exn (.validationExc "v"))).result = .error ⟨500, "Internal server error"⟩
      ∧ (get_products_by_category_handler (some "books") none none
          (.exn (.validationExc "v"))).logs
          = [⟨"Get products by category error", pyStr (.validationExc "v")⟩]) ∧
    ((search_products_handler "d" none none (.exn (.businessRuleExc "b"))).result
        = .error ⟨500, "Internal server error"⟩
      ∧ (search_products_handler "d" none none (.exn (.businessRuleExc "b"))).logs
          = [⟨"Search products error", pyStr (.businessRuleExc "b")⟩]) ∧
    ((create_product_handler "d" (.exn (.otherExc "boom"))).result
        = .error ⟨500, "Internal server error"⟩
      ∧ (create_product_handler "d" (.exn (.otherExc "boom"))).logs
          = [⟨"Create product error", pyStr (.otherExc "boom")⟩]) ∧
    ((update_product_handler (some "12345678123456781234567812345678") "d"
        (.exn (.otherExc "boom"))).result = .error ⟨500, "Internal server error"⟩
      ∧ (update_product_handler (some "12345678123456781234567812345678") "d"
          (.exn (.otherExc "boom"))).logs = [⟨"Update product error", pyStr (.otherExc "boom")⟩]) :=
  claim_C9 (.validationExc "v") (.businessRuleExc "b") (.otherExc "boom")
    "12345678123456781234567812345678" "SKU-1" "books" "d"
    (by decide) (by decide) (by decide) (by decide) none none 0 100 rfl rfl
    (by decide) (by decide) (by decide) rfl rfl rfl

/-- C10: the domain-exception mapping is asymmetric — `ValidationException`
is mapped to 400 by create, update and search, `BusinessRuleException` to
409 by create and update only; in every other handler (and for
`BusinessRuleException` also in search) the same domain exceptions fall
into the generic branch and surface as the 500 "Internal server error". -/
theorem claim_C10 (m : String) (pid sku cat dto : String)
    (hpid : pid ≠ "") (hU : pyUUIDValid pid = true) (hsku : sku ≠ "") (hcat : cat ≠ "")
    (skipQ limitQ : Option String) (skip limit : Int)
    (h₁ : paramInt skipQ 0 = some skip) (h₂ : paramInt limitQ 100 = some limit)
    (h₃ : 0 ≤ skip) (h₄ : 1 ≤ limit) (h₅ : limit ≤ 1000) :
    ((create_product_handler dto (.exn (.validationExc m))).result = .error ⟨400, m⟩) ∧
    ((update_product_handler (some pid) dto (.exn (.validationExc m))).result
        = .error ⟨400, m⟩) ∧
    ((search_products_handler dto skipQ limitQ (.exn (.validationExc m))).result
        = .error ⟨400, m⟩) ∧
    ((create_product_handler dto (.exn (.businessRuleExc m))).result = .error ⟨409, m⟩) ∧
    ((update_product_handler (some pid) dto (.exn (.businessRuleExc m))).result
        = .error ⟨409, m⟩) ∧
    ((get_product_handler (some pid) (.exn (.validationExc m))).result
        = .error ⟨500, "Internal server error"⟩) ∧
    ((get_product_handler (some pid) (.exn (.businessRuleExc m))).result
        = .error ⟨500, "Internal server error"⟩) ∧
    ((get_product_by_sku_handler (some sku) (.exn (.validationExc m))).result
        = .error ⟨500, "Internal server error"⟩) ∧
    ((get_product_by_sku_handler (some sku) (.exn (.businessRuleExc m))).result
        = .error ⟨500, "Internal server error"⟩) ∧
    ((list_products_handler skipQ limitQ (.exn (.validationExc m))).result
        = .error ⟨500, "Internal server error"⟩) ∧
    ((list_products_handler skipQ limitQ (.exn (.businessRuleExc m))).result
        = .error ⟨500, "Internal server error"⟩) ∧
    ((delete_product_handler (some pid) (.exn (.validationExc m))).result
        = .error ⟨500, "Internal server error"⟩) ∧
    ((delete_product_handler (some pid) (.exn (.businessRuleExc m))).result
        = .error ⟨500, "Internal server error"⟩) ∧
    ((get_products_by_category_handler (some cat) skipQ limitQ
        (.exn (.validationExc m))).result = .error ⟨500, "Internal server error"⟩) ∧
    ((get_products_by_category_handler (some cat) skipQ limitQ
        (.exn (.businessRuleExc m))).result = .error ⟨500, "Internal server error"⟩) ∧
    ((search_products_handler dto skipQ limitQ (.exn (.businessRuleExc m))).result
        = .error ⟨500, "Internal server error"⟩) := by
  have hnsk : ¬ skip < 0 := not_lt.mpr h₃
  have hnlim : ¬ (limit < 1 ∨ limit > 1000) := by omega
  refine ⟨?_, ?_, ?_, ?_, ?_, ?_, ?_, ?_, ?_, ?_, ?_, ?_, ?_, ?_, ?_, ?_⟩
  · simp [create_product_handler, create_product_try, runVBE]
  · simp [update_product_handler, update_product_try, runLVBE, truthy_some hpid, hU]
  · simp [search_products_handler, search_products_try, runLVE, h₁, h₂, hnsk, hnlim]
  · simp [create_product_handler, create_product_try, runVBE]
  · simp [update_product_handler, update_product_try, runLVBE, truthy_some hpid, hU]
  · simp [get_product_handler, get_product_try, runLE, truthy_some hpid, hU]
  · simp [get_product_handler, get_product_try, runLE, truthy_some hpid, hU]
  · simp [get_product_by_sku_handler, get_product_by_sku_try, runLE, truthy_some hsku]
  · simp [get_product_by_sku_handler, get_product_by_sku_try, runLE, truthy_some hsku]
  · simp [list_products_handler, list_products_try, runLE, h₁, h₂, hnsk, hnlim]
  · simp [list_products_handler, list_products_try, runLE, h₁, h₂, hnsk, hnlim]
  · simp [delete_product_handler, delete_product_try, runLE, truthy_some hpid, hU]
  · simp [delete_product_handler, delete_product_try, runLE, truthy_some hpid, hU]
  · simp [get_products_by_category_handler, get_products_by_category_try, runLE,
      truthy_some hcat, h₁, h₂, hnsk, hnlim]
  · simp [get_products_by_category_handler, get_products_by_category_try, runLE,
      truthy_some hcat, h₁, h₂, hnsk, hnlim]
  · simp [search_products_handler, search_products_try, runLVE, h₁, h₂, hnsk, hnlim]

/-- C10 (witness): the asymmetric mapping on concrete invocations. -/
theorem claim_C10_witness :
    ((create_product_handler "d" (.exn (.validationExc "m"))).result
        = .error ⟨400, "m"⟩) ∧
    ((update_product_handler (some "12345678123456781234567812345678") "d"
        (.exn (.validationExc "m"))).result = .error ⟨400, "m"⟩) ∧
    ((search_products_handler "d" none none (.exn (.validationExc "m"))).result
        = .error ⟨400, "m"⟩) ∧
    ((create_product_handler "d" (.exn (.businessRuleExc "m"))).result
        = .error ⟨409, "m"⟩) ∧
    ((update_product_handler (some "12345678123456781234567812345678") "d"
        (.exn (.businessRuleExc "m"))).result = .error ⟨409, "m"⟩) ∧
    ((get_product_handler (some "12345678123456781234567812345678")
        (.exn (.validationExc "m"))).result = .error ⟨500, "Internal server error"⟩) ∧
    ((get_product_handler (some "12345678123456781234567812345678")
        (.exn (.businessRuleExc "m"))).result = .error ⟨500, "Internal server error"⟩) ∧
    ((get_product_by_sku_handler (some "SKU-1") (.exn (.validationExc "m"))).result
        = .error ⟨500, "Internal server error"⟩) ∧
    ((get_product_by_sku_handler (some "SKU-1") (.exn (.businessRuleExc "m"))).result
        = .error ⟨500, "Internal server error"⟩) ∧
    ((list_products_handler none none (.exn (.validationExc "m"))).result
        = .error ⟨500, "Internal server error"⟩) ∧
    ((list_products_handler none none (.exn (.businessRuleExc "m"))).result
        = .error ⟨500, "Internal server error"⟩) ∧
    ((delete_product_handler (some "12345678123456781234567812345678")
        (.exn (.validationExc "m"))).result = .error ⟨500, "Internal server error"⟩) ∧
    ((delete_product_handler (some "12345678123456781234567812345678")
        (.exn (.businessRuleExc "m"))).result = .error ⟨500, "Internal server error"⟩) ∧
    ((get_products_by_category_handler (some "books") none none
        (.exn (.validationExc "m"))).result = .error ⟨500, "Internal server error"⟩) ∧
    ((get_products_by_category_handler (some "books") none none
        (.exn (.businessRuleExc "m"))).result = .error ⟨500, "Internal server error"⟩) ∧
    ((search_products_handler "d" none none (.exn (.businessRuleExc "m"))).result
        = .error ⟨500, "Internal server error"⟩) :=
  claim_C10 "m" "12345678123456781234567812345678" "SKU-1" "books" "d"
    (by decide) (by decide) (by decide) (by decide) none none 0 100 rfl rfl
    (by decide) (by decide) (by decide)

end ProdutoHandler

